import Mathlib

/-!
# Verification of the conversational travel-requirement orchestrator (React frontend)

Shallow embedding of the turn logic of `src/frontend/src/App.js`
(`sendMessage`, `setConversationContext`, `formatVisaRequirements`,
`formatHealthAdvisory`, and the completion update applied by the async block
inside the `missing_fields.length === 0` branch).

JavaScript dynamic values that the turn logic manipulates (field values of the
accumulated requirements) are modelled by `JVal`; JS truthiness (`||`, `if`)
is modelled by `JVal.truthy` / `jsOr`.  Strings interpolated by template
literals are built with explicit concatenation.  Presentation-only material
that no control-flow decision reads (flight/hotel/itinerary prose, profile
lines, suggestion lists, `rawData`) is not carried in message contents; each
structured content constructor records exactly the data the corresponding
source template branches on or interpolates from the conversation state.
-/

namespace HotTravel

/-- A JavaScript value as used for requirement fields in `App.js`:
`null`/`undefined` (both falsy and interchangeable for `||`), strings,
numbers, and arrays (`special_requirements`). -/
inductive JVal where
  | vNull : JVal
  | vStr (s : String) : JVal
  | vNum (n : Int) : JVal
  | vList (xs : List String) : JVal
deriving DecidableEq

/-- JS truthiness: `null`/`undefined`, `""` and `0` are falsy; every array
(including `[]`) is truthy. -/
def JVal.truthy : JVal → Bool
  | .vNull => false
  | .vStr s => s ≠ ""
  | .vNum n => n ≠ 0
  | .vList _ => true

/-- JS `a || b` on requirement values. -/
def jsOr (a b : JVal) : JVal := if a.truthy then a else b

/-- The requirement-field names of `accumulated_requirements` in `App.js`. -/
inductive Field where
  | destination | departure_date | return_date | duration | budget
  | budget_currency | passengers | children | travel_class
  | accommodation_type | special_requirements
deriving DecidableEq

/-- Record `accumulated_requirements` (and extractor deltas): the eleven keys the
source object literal declares (`App.js` lines 51-63). -/
structure Requirements where
  destination : JVal
  departure_date : JVal
  return_date : JVal
  duration : JVal
  budget : JVal
  budget_currency : JVal
  passengers : JVal
  children : JVal
  travel_class : JVal
  accommodation_type : JVal
  special_requirements : JVal
deriving DecidableEq

/-- Key-indexed read access to a `Requirements` record. -/
def Requirements.get (r : Requirements) : Field → JVal
  | .destination => r.destination
  | .departure_date => r.departure_date
  | .return_date => r.return_date
  | .duration => r.duration
  | .budget => r.budget
  | .budget_currency => r.budget_currency
  | .passengers => r.passengers
  | .children => r.children
  | .travel_class => r.travel_class
  | .accommodation_type => r.accommodation_type
  | .special_requirements => r.special_requirements

/-- The initial `accumulated_requirements` (`App.js` lines 51-63):
`budget_currency: 'USD'`, `passengers: 1`, `special_requirements: []`,
everything else `null`. -/
def initialRequirements : Requirements :=
  { destination := .vNull, departure_date := .vNull, return_date := .vNull
    duration := .vNull, budget := .vNull, budget_currency := .vStr "USD"
    passengers := .vNum 1, children := .vNull, travel_class := .vNull
    accommodation_type := .vNull, special_requirements := .vList [] }

/-- The empty object `{}` used for `newRequirements` when the response carries
none: every key reads as `undefined`, i.e. `vNull`. -/
def emptyRequirements : Requirements :=
  { destination := .vNull, departure_date := .vNull, return_date := .vNull
    duration := .vNull, budget := .vNull, budget_currency := .vNull
    passengers := .vNull, children := .vNull, travel_class := .vNull
    accommodation_type := .vNull, special_requirements := .vNull }

/-- The merge performed by `setConversationContext` (`App.js` lines 305-322):
each of the eleven keys is written as
`newRequirements.k || prev.accumulated_requirements.k`. -/
def mergeRequirements (prev newReq : Requirements) : Requirements :=
  { destination := jsOr newReq.destination prev.destination
    departure_date := jsOr newReq.departure_date prev.departure_date
    return_date := jsOr newReq.return_date prev.return_date
    duration := jsOr newReq.duration prev.duration
    budget := jsOr newReq.budget prev.budget
    budget_currency := jsOr newReq.budget_currency prev.budget_currency
    passengers := jsOr newReq.passengers prev.passengers
    children := jsOr newReq.children prev.children
    travel_class := jsOr newReq.travel_class prev.travel_class
    accommodation_type := jsOr newReq.accommodation_type prev.accommodation_type
    special_requirements := jsOr newReq.special_requirements prev.special_requirements }

/-- JS truthiness of an optional string (`undefined`/`null` and `""` falsy). -/
def jsTruthyStrOpt : Option String → Bool
  | some s => s ≠ ""
  | none => false

/-- JS `a || b` for optional strings (used for `data.session_id || prev.session_id`). -/
def jsOrStrOpt (a b : Option String) : Option String :=
  if jsTruthyStrOpt a then a else b

/-- The `conversationContext` state (`App.js` lines 49-64). -/
structure ConversationContext where
  session_id : Option String
  accumulated_requirements : Requirements
deriving DecidableEq

/-- Initial conversation context: `session_id: null` and the initial
accumulated requirements. -/
def initialConversationContext : ConversationContext :=
  { session_id := none, accumulated_requirements := initialRequirements }

/-- The `setConversationContext` update (`App.js` lines 305-322):
`session_id: data.session_id || prev.session_id` and the fill-in merge of the
new requirements into the accumulated ones. -/
def updateConversationContext (prev : ConversationContext) (sid : Option String)
    (newReq : Requirements) : ConversationContext :=
  { session_id := jsOrStrOpt sid prev.session_id
    accumulated_requirements := mergeRequirements prev.accumulated_requirements newReq }

/-- Model of `data.data.requirements.data` (the two-level path is collapsed into one
optional record): carries `requirements` and `missing_fields`, each possibly
absent.  `missing_fields` names come from the fixed requirement vocabulary. -/
structure RequirementsData where
  requirements : Option Requirements
  missing_fields : Option (List Field)
deriving DecidableEq

/-- The shape of `data.data` in a successful backend response: absent, a plain
string, or an object with an optional `response` string and the optional
requirements payload. -/
inductive DataField where
  | noData : DataField
  | strData (s : String) : DataField
  | objData (response : Option String) (requirementsData : Option RequirementsData) : DataField
deriving DecidableEq

/-- A parsed successful backend response: `data.session_id` and `data.data`. -/
structure ResponseData where
  session_id : Option String
  dataField : DataField
deriving DecidableEq

/-- Evaluation of `const requirementsData = data.data?.requirements?.data || \x7b\x7d`
(`App.js` line 123). -/
def requirementsDataOf (d : ResponseData) : RequirementsData :=
  match d.dataField with
  | .objData _ rp => rp.getD ⟨none, none⟩
  | _ => ⟨none, none⟩

/-- Evaluation of `const newRequirements = requirementsData.requirements || \x7b\x7d`
(`App.js` line 133 / 304). -/
def newRequirementsOf (d : ResponseData) : Requirements :=
  (requirementsDataOf d).requirements.getD emptyRequirements

/-- Evaluation of `const missing_fields = requirementsData.missing_fields || []`
(`App.js` line 124). -/
def missingFieldsOf (d : ResponseData) : List Field :=
  (requirementsDataOf d).missing_fields.getD []

/-- The `displayRequirements` object (`App.js` lines 138-145): the six keys
the templates interpolate, each `newRequirements.k || accumulated.k`. -/
structure DisplayRequirements where
  destination : JVal
  passengers : JVal
  duration : JVal
  budget : JVal
  travel_class : JVal
  departure_date : JVal
deriving DecidableEq

/-- Build `displayRequirements` from the fresh extraction and the accumulated
requirements (`App.js` lines 138-145). -/
def mkDisplayRequirements (newReq prevAcc : Requirements) : DisplayRequirements :=
  { destination := jsOr newReq.destination prevAcc.destination
    passengers := jsOr newReq.passengers prevAcc.passengers
    duration := jsOr newReq.duration prevAcc.duration
    budget := jsOr newReq.budget prevAcc.budget
    travel_class := jsOr newReq.travel_class prevAcc.travel_class
    departure_date := jsOr newReq.departure_date prevAcc.departure_date }

/-- The `type` tag of a chat message (`'user' | 'agent' | 'loading'`). -/
inductive MessageType where
  | user | agent | loading
deriving DecidableEq

/-- Agent message content.  Plain strings stay strings; the two structured
templates of the `else` branch (`App.js` lines 148-297) are recorded as the
data they interpolate: the travel-proposal content while visa/health
information is loading, the same content after the async completion update
(with the visa and health sections as produced), and the
requirements-gathering report with the displayed `missing_fields` list. -/
inductive MsgContent where
  | str (s : String) : MsgContent
  | planInitial (disp : DisplayRequirements) : MsgContent
  | planComplete (disp : DisplayRequirements) (visaSection healthSection : String) : MsgContent
  | gatheringReport (missing : List Field) (disp : DisplayRequirements) : MsgContent
deriving DecidableEq

/-- A chat message: `type`, `content`, and the `isComplete` / `sessionId`
annotations attached to successful agent replies (`App.js` lines 324-336). -/
structure Message where
  mtype : MessageType
  content : MsgContent
  isComplete : Option Bool := none
  sessionId : Option String := none
deriving DecidableEq

/-- The component state that `sendMessage` reads and writes. -/
structure AppState where
  messages : List Message
  inputValue : String
  isLoading : Bool
  conversationContext : ConversationContext
deriving DecidableEq

/-- Outcome of the turn's backend call: a parsed successful response, or a
thrown error (network failure or non-ok HTTP status, `App.js` lines 111-113
and 339). -/
inductive FetchOutcome where
  | ok (d : ResponseData) : FetchOutcome
  | error (msg : String) : FetchOutcome
deriving DecidableEq

/-- Evaluation of `const query = messageText || inputValue.trim()` (`App.js` line 78);
`messageText` defaults to `null`. -/
def queryOf (st : AppState) (messageText : Option String) : String :=
  match messageText with
  | some s => if s ≠ "" then s else st.inputValue.trim
  | none => st.inputValue.trim

/-- The agent reply content chosen on the success path
(`App.js` lines 126-301). -/
def agentContentOf (d : ResponseData) (ctx : ConversationContext) : MsgContent :=
  match d.dataField with
  | .noData => .str "Travel request processed successfully!"
  | .strData s => .str s
  | .objData resp _ =>
      if jsTruthyStrOpt resp then .str (resp.getD "")
      else
        let disp := mkDisplayRequirements (newRequirementsOf d) ctx.accumulated_requirements
        if missingFieldsOf d = [] then .planInitial disp
        else .gatheringReport (missingFieldsOf d) disp

/-- The loading placeholder message (`App.js` line 90). -/
def loadingMessage : Message :=
  { mtype := .loading, content := .str "⏳ Processing your travel request..." }

/-- The error reply appended by the catch branch (`App.js` lines 344-347). -/
def errorMessage (e : String) : Message :=
  { mtype := .agent
    content := .str ("Sorry, I encountered an error: " ++ e ++
      ". Please make sure the API server is running on port 8000.") }

/-- One `sendMessage` turn (`App.js` lines 77-352), with the backend call's
outcome passed as a parameter: guard on empty query / in-flight request,
append the user message and the loading placeholder, then on success remove
loading messages, append the agent reply and merge the extraction into the
conversation context; on error remove loading messages and append the error
reply, leaving the context untouched.  `isLoading` is reset in `finally`. -/
def sendMessage (st : AppState) (messageText : Option String)
    (outcome : FetchOutcome) : AppState :=
  if queryOf st messageText = "" ∨ st.isLoading = true then st
  else
    let msgs2 := st.messages ++
      [{ mtype := .user, content := .str (queryOf st messageText) }] ++ [loadingMessage]
    match outcome with
    | .error e =>
        { st with
          messages := (msgs2.filter (fun m => m.mtype ≠ MessageType.loading)) ++ [errorMessage e]
          inputValue := ""
          isLoading := false }
    | .ok d =>
        { messages := (msgs2.filter (fun m => m.mtype ≠ MessageType.loading)) ++
            [{ mtype := .agent
               content := agentContentOf d st.conversationContext
               isComplete := some (missingFieldsOf d).isEmpty
               sessionId := d.session_id }]
          inputValue := ""
          isLoading := false
          conversationContext :=
            updateConversationContext st.conversationContext d.session_id (newRequirementsOf d) }

/-- Whether the turn reaches the async block that fetches the visa
requirements and the health advisory (`App.js` lines 185-256): exactly the
success path whose `data.data` is an object without a truthy `response` and
whose `missing_fields` list is empty — no other condition is consulted. -/
def sendMessageDispatchesCompliance (st : AppState) (messageText : Option String)
    (outcome : FetchOutcome) : Bool :=
  if queryOf st messageText = "" ∨ st.isLoading = true then false
  else
    match outcome with
    | .error _ => false
    | .ok d =>
        match d.dataField with
        | .objData resp _ => !(jsTruthyStrOpt resp) && (missingFieldsOf d).isEmpty
        | _ => false

/-- Replacement of the first occurrence only, the behaviour of JS
`String.prototype.replace` with a string pattern. -/
def replaceFirst (s pat rep : String) : String :=
  match s.splitOn pat with
  | [] => s
  | [x] => x
  | x :: rest => x ++ rep ++ String.intercalate pat rest

/-- The `visa_requirement` object read by `formatVisaRequirements`
(`App.js` lines 848, 858-885).  `vtype` embeds the source field `type`;
`cost` is an optional object carried as its `JSON.stringify` rendering
(any present object is truthy). -/
structure VisaRequirement where
  required : Bool
  vtype : Option String
  duration : Option String
  processing_time : Option String
  cost : Option String
  documents : Option (List String)
  application_url : Option String
  notes : Option (List String)
deriving DecidableEq

/-- The `visa_requirements.data` payload: the requirement record plus
`origin_country`, `destination_country` and optional `disclaimers`. -/
structure VisaPayload where
  visa_requirement : VisaRequirement
  origin_country : String
  destination_country : String
  disclaimers : Option (List String)
deriving DecidableEq

/-- Outcome of the visa-requirements fetch inside `formatVisaRequirements`:
an ok response with a present `visa_requirements.data`, a response that is
not ok or lacks the payload, or a thrown (and caught) error. -/
inductive VisaFetch where
  | ok (p : VisaPayload) : VisaFetch
  | notOk : VisaFetch
  | err (e : String) : VisaFetch
deriving DecidableEq

/-- The static fallback section returned by `formatVisaRequirements` when the
lookup fails (`App.js` lines 901-916). -/
def visaFallbackSection : String :=
  "\n📋 Visa & Entry Requirements\n\n⚠️ Unable to retrieve current visa requirements from Amadeus API.\nPlease verify visa requirements with the destination country\x27s embassy or consulate.\n\nGeneral Requirements:\n• Valid passport (minimum 6 months validity)\n• Proof of onward/return travel\n• Sufficient funds for stay\n• No criminal record (may require police certificate)\n\n⚠️ AGENT ACTION REQUIRED:\n• Check current visa requirements with official sources\n• Verify passport validity dates\n• Confirm entry requirements for travel purpose"

/-- The visa section of the travel proposal (`App.js` lines 821-917): on a
successful lookup the formatted requirements, otherwise the static fallback.
The country-code computation feeding the request URL is plumbing and not
modelled. -/
def formatVisaRequirements : VisaFetch → String
  | .ok p =>
      let visa := p.visa_requirement
      let s0 := "\n📋 Visa & Entry Requirements\n\nTravel Document Requirements for " ++
        p.origin_country ++ " Citizens to " ++ p.destination_country ++ ":\n"
      let s1 :=
        if visa.required then
          "• " ++ (if jsTruthyStrOpt visa.vtype then
              replaceFirst (visa.vtype.getD "").toUpper "_" " " else "VISA") ++ " REQUIRED" ++
          (if jsTruthyStrOpt visa.duration then "\n• Maximum stay: " ++ visa.duration.getD "" else "") ++
          (if jsTruthyStrOpt visa.processing_time then
              "\n• Processing time: " ++ visa.processing_time.getD "" else "") ++
          (if visa.cost.isSome then "\n• Cost: " ++ visa.cost.getD "" else "")
        else
          "• NO VISA REQUIRED" ++
          (if jsTruthyStrOpt visa.duration then " for stays up to " ++ visa.duration.getD "" else "") ++
          (if jsTruthyStrOpt visa.vtype then
              "\n• Entry type: " ++ replaceFirst (visa.vtype.getD "") "_" " " else "")
      let s2 :=
        match visa.documents with
        | some docs =>
            if docs.length > 0 then
              "\n\nRequired Documents:" ++ docs.foldl (fun acc doc => acc ++ "\n• " ++ doc) ""
            else ""
        | none => ""
      let s3 :=
        if jsTruthyStrOpt visa.application_url then
          "\n\nApplication: " ++ visa.application_url.getD "" else ""
      let s4 :=
        match visa.notes with
        | some ns =>
            if ns.length > 0 then
              "\n\n⚠️ AGENT ACTION REQUIRED:" ++ ns.foldl (fun acc n => acc ++ "\n• " ++ n) ""
            else ""
        | none => ""
      let s5 :=
        match p.disclaimers with
        | some ds =>
            "\n\n⚠️ IMPORTANT DISCLAIMERS:" ++ ds.foldl (fun acc x => acc ++ "\n• " ++ x) ""
        | none => ""
      s0 ++ s1 ++ s2 ++ s3 ++ s4 ++ s5
  | .notOk => visaFallbackSection
  | .err _ => visaFallbackSection

/-- One vaccination entry of the health advisory (`App.js` lines 957-962). -/
structure Vaccination where
  name : String
  required : Bool
  timing : Option String
  notes : Option String
deriving DecidableEq

/-- One health-risk entry (`App.js` lines 968-976). -/
structure HealthRisk where
  disease : String
  risk_level : String
  prevention : Option (List String)
  symptoms : Option (List String)
deriving DecidableEq

/-- One medical-preparation entry (`App.js` lines 982-989). -/
structure MedicalPrep where
  category : String
  priority : String
  items : Option (List String)
deriving DecidableEq

/-- The `health_advisory` object read by `formatHealthAdvisory`
(`App.js` lines 946, 955-1018).  `healthcare_info` and `emergency_contacts`
are carried as their `Object.entries` key-value lists. -/
structure HealthAdvisoryData where
  destination : String
  vaccinations : Option (List Vaccination)
  health_risks : Option (List HealthRisk)
  medical_preparations : Option (List MedicalPrep)
  healthcare_info : Option (List (String × String))
  emergency_contacts : Option (List (String × String))
  advisories : Option (List String)
deriving DecidableEq

/-- The `health_advisory.data` payload: the advisory plus optional
`disclaimers`. -/
structure HealthPayload where
  health_advisory : HealthAdvisoryData
  disclaimers : Option (List String)
deriving DecidableEq

/-- Outcome of the health-advisory fetch inside `formatHealthAdvisory`. -/
inductive HealthFetch where
  | ok (p : HealthPayload) : HealthFetch
  | notOk : HealthFetch
  | err (e : String) : HealthFetch
deriving DecidableEq

/-- The static fallback section returned by `formatHealthAdvisory` when the
lookup fails (`App.js` lines 1035-1052). -/
def healthFallbackSection : String :=
  "\n🏥 Health & Medical Advisory\n\n⚠️ Unable to retrieve current health advisory information.\nPlease consult a travel medicine specialist for destination-specific health requirements.\n\nGeneral Health Preparations:\n• Ensure routine vaccinations are up to date (MMR, DPT, flu, COVID-19)\n• Consult healthcare provider 4-6 weeks before travel\n• Obtain comprehensive travel health insurance\n• Pack personal medications in original containers\n• Research local healthcare facilities at destination\n\n⚠️ AGENT RECOMMENDATIONS:\n• Schedule travel medicine consultation\n• Verify destination-specific vaccination requirements\n• Confirm travel insurance includes medical evacuation\n• Research emergency contact information for destination"

/-- The health section of the travel proposal (`App.js` lines 919-1053): on a
successful lookup the formatted advisory, otherwise the static fallback. -/
def formatHealthAdvisory : HealthFetch → String
  | .ok p =>
      let advisory := p.health_advisory
      let h0 := "\n🏥 Health & Medical Advisory\n\nHealth Requirements for " ++
        advisory.destination ++ ":\n"
      let h1 :=
        match advisory.vaccinations with
        | some vs =>
            if vs.length > 0 then
              "\nVaccination Requirements:" ++ vs.foldl (fun acc vacc =>
                acc ++ "\n• " ++ vacc.name ++ " - " ++
                  (if vacc.required then "REQUIRED" else "Recommended") ++
                  (if jsTruthyStrOpt vacc.timing then " (" ++ vacc.timing.getD "" ++ ")" else "") ++
                  (if jsTruthyStrOpt vacc.notes then "\n  " ++ vacc.notes.getD "" else "")) ""
            else ""
        | none => ""
      let h2 :=
        match advisory.health_risks with
        | some rs =>
            if rs.length > 0 then
              "\n\nHealth Risks:" ++ rs.foldl (fun acc risk =>
                acc ++ "\n• " ++ risk.disease ++ " (" ++
                  (replaceFirst risk.risk_level "_" " ").toUpper ++ " risk)" ++
                  (match risk.prevention with
                   | some ps =>
                       if ps.length > 0 then "\n  Prevention: " ++ String.intercalate ", " ps
                       else ""
                   | none => "") ++
                  (match risk.symptoms with
                   | some ss =>
                       if ss.length > 0 then "\n  Symptoms: " ++ String.intercalate ", " ss
                       else ""
                   | none => "")) ""
            else ""
        | none => ""
      let h3 :=
        match advisory.medical_preparations with
        | some preps =>
            if preps.length > 0 then
              "\n\nMedical Preparations:" ++ preps.foldl (fun acc prep =>
                acc ++ "\n• " ++ prep.category ++ " (" ++ prep.priority.toUpper ++ ")" ++
                  (match prep.items with
                   | some items =>
                       if items.length > 0 then
                         items.foldl (fun a item => a ++ "\n  - " ++ item) ""
                       else ""
                   | none => "")) ""
            else ""
        | none => ""
      let h4 :=
        match advisory.healthcare_info with
        | some kvs =>
            "\n\nHealthcare Information:" ++ kvs.foldl (fun acc kv =>
              if kv.2 ≠ "" then acc ++ "\n• " ++ replaceFirst kv.1 "_" " " ++ ": " ++ kv.2
              else acc) ""
        | none => ""
      let h5 :=
        match advisory.emergency_contacts with
        | some kvs =>
            "\n\nEmergency Contacts:" ++ kvs.foldl (fun acc kv =>
              if kv.2 ≠ "" then acc ++ "\n• " ++ replaceFirst kv.1 "_" " " ++ ": " ++ kv.2
              else acc) ""
        | none => ""
      let h6 :=
        match advisory.advisories with
        | some as_ =>
            if as_.length > 0 then
              "\n\n⚠️ AGENT RECOMMENDATIONS:" ++ as_.foldl (fun acc x => acc ++ "\n• " ++ x) ""
            else ""
        | none => ""
      let h7 :=
        match p.disclaimers with
        | some ds =>
            "\n\n⚠️ IMPORTANT DISCLAIMERS:" ++ ds.foldl (fun acc x => acc ++ "\n• " ++ x) ""
        | none => ""
      h0 ++ h1 ++ h2 ++ h3 ++ h4 ++ h5 ++ h6 ++ h7
  | .notOk => healthFallbackSection
  | .err _ => healthFallbackSection

/-- The completion update run by the async block of the plan-ready branch
(`App.js` lines 186-256): await the visa and health sections (each already
absorbing its own failure into a fallback string) and replace the content of
the last message, when it is an agent message, with the complete proposal.
`disp` is the display data the closed-over `baseContent` interpolates. -/
def completePlanUpdate (disp : DisplayRequirements) (vOut : VisaFetch)
    (hOut : HealthFetch) (msgs : List Message) : List Message :=
  match msgs.getLast? with
  | some m =>
      if m.mtype = MessageType.agent then
        msgs.dropLast ++
          [{ m with content :=
              .planComplete disp (formatVisaRequirements vOut) (formatHealthAdvisory hOut) }]
      else msgs
  | none => msgs

/-!
## Spec-side definitions and concrete example inputs

The two definitions below follow the spec's words (not the source) and exist
only to be compared against the source-derived state: the required-field set
of §8 Scenario 1 and the derived missing set of §4.1 / §8
(`required_fields - keys(fields)`, where a key counts as present exactly when
its value is set — unset differs from empty string, zero and the empty list).
-/

/-- Spec-side definition: the required requirement fields, per §8 Scenario 1
(`missing = [duration, budget, departure_date, travel_class]` once
destination and passengers are known). -/
def requiredFields : List Field :=
  [.destination, .passengers, .duration, .budget, .departure_date, .travel_class]

/-- Spec-side definition: the derived missing set,
`required_fields - keys(fields)`; a field is present exactly when its value
is set (non-null), so empty strings, zero and the empty list count as
present. -/
def specMissing (r : Requirements) : List Field :=
  requiredFields.filter (fun k => r.get k = JVal.vNull)

/-- Accumulated requirements after a first turn established the destination. -/
def exampleTokyoRequirements : Requirements :=
  { initialRequirements with destination := .vStr "Tokyo" }

/-- Conversation context owning `exampleTokyoRequirements`. -/
def exampleTokyoContext : ConversationContext :=
  { session_id := some "sess-1", accumulated_requirements := exampleTokyoRequirements }

/-- App state mid-conversation, idle, with the Tokyo context. -/
def exampleTokyoState : AppState :=
  { messages := [], inputValue := "", isLoading := false
    conversationContext := exampleTokyoContext }

/-- Requirements payload of a response whose extraction is empty while the
reported missing list still names the destination. -/
def exampleStaleMissingPayload : RequirementsData :=
  { requirements := some emptyRequirements
    missing_fields := some [.destination, .duration, .budget, .departure_date, .travel_class] }

/-- A response whose extraction is empty, and whose reported missing list
still names the destination even though the accumulated state already has
one. -/
def exampleStaleMissingResponse : ResponseData :=
  { session_id := some "sess-1"
    dataField := .objData none (some exampleStaleMissingPayload) }

/-- Requirements payload of a fully-extracted request with no missing
fields. -/
def examplePlanReadyPayload : RequirementsData :=
  { requirements := some
      { emptyRequirements with
          destination := .vStr "Tokyo", duration := .vNum 7, budget := .vNum 3000
          departure_date := .vStr "2025-12-01", travel_class := .vStr "business"
          passengers := .vNum 2 }
    missing_fields := some [] }

/-- A response with a full extraction and an empty missing list. -/
def examplePlanReadyResponse : ResponseData :=
  { session_id := some "sess-2"
    dataField := .objData none (some examplePlanReadyPayload) }

/-- A fresh idle app state. -/
def exampleIdleState : AppState :=
  { messages := [], inputValue := "", isLoading := false
    conversationContext := initialConversationContext }

/-- An app state with a request still in flight. -/
def exampleBusyState : AppState :=
  { messages := [], inputValue := "", isLoading := true
    conversationContext := initialConversationContext }

/-- Delta carrying only `budget: 0` (a present, non-null numeric value). -/
def exampleZeroBudgetDelta : Requirements :=
  { emptyRequirements with budget := .vNum 0 }

/-- Accumulated requirements with a known budget of 500. -/
def exampleBudget500 : Requirements :=
  { initialRequirements with budget := .vNum 500 }

/-- Delta carrying only `special_requirements: []` (present-but-empty list). -/
def exampleEmptyListDelta : Requirements :=
  { emptyRequirements with special_requirements := .vList [] }

/-- Display data for a concrete completed plan. -/
def exampleDisplay : DisplayRequirements :=
  mkDisplayRequirements (newRequirementsOf examplePlanReadyResponse) initialRequirements

/-- A response whose `data.data` is a plain string: it carries no
requirements payload, so the turn's missing list defaults to empty. -/
def examplePlainStringResponse : ResponseData :=
  { session_id := some "sess-3", dataField := .strData "Visa answer" }

/-- Decision of whether a message content is the travel-proposal reply
(the plan template, initial or completed). -/
def MsgContent.isPlanReply : MsgContent → Bool
  | .planInitial _ => true
  | .planComplete _ _ _ => true
  | _ => false

/-!
## Helper lemmas
-/

theorem jsOr_of_truthy (a b : JVal) (h : a.truthy = true) : jsOr a b = a := by
  unfold jsOr; rw [h]; rfl

theorem jsOr_of_not_truthy (a b : JVal) (h : a.truthy = false) : jsOr a b = b := by
  unfold jsOr; rw [h]; rfl

theorem jsOr_absorb (a b : JVal) : jsOr a (jsOr a b) = jsOr a b := by
  unfold jsOr
  cases h : a.truthy <;> simp [h]

theorem filter_loading_of_filter_ne (l : List Message) :
    ((l.filter (fun m => m.mtype ≠ MessageType.loading)).filter
      (fun m => m.mtype = MessageType.loading)) = [] := by
  induction l with
  | nil => rfl
  | cons a t ih =>
      by_cases h : a.mtype = MessageType.loading <;>
        simp [List.filter_cons, h, ih]

/-!
## Claim theorems
-/

/-- C1: Fill-in-only merge — for every accumulated requirement state `S` and
extractor delta `D`, if `D` assigns null (or no value) to a field `k`, then
merging `D` into `S` leaves field `k` equal to `S`'s previous value. -/
theorem merge_fill_in_only (S D : Requirements) (k : Field)
    (h : D.get k = JVal.vNull) :
    (mergeRequirements S D).get k = S.get k := by
  cases k <;>
    simp_all [Requirements.get, mergeRequirements, jsOr, JVal.truthy]

/-- C1 witness: a delta with a null budget leaves the accumulated budget
untouched. -/
theorem merge_fill_in_only_witness :
    emptyRequirements.get Field.budget = JVal.vNull ∧
    (mergeRequirements exampleBudget500 emptyRequirements).get Field.budget =
      exampleBudget500.get Field.budget :=
  ⟨by decide, merge_fill_in_only exampleBudget500 emptyRequirements Field.budget (by decide)⟩

/-- C2 counterexample: a delta carrying the non-null value `budget: 0` does
not overwrite the accumulated `budget: 500` — JS `||` treats `0` as absent,
so the merged state keeps 500. -/
theorem merge_nonnull_overwrite_cex :
    exampleZeroBudgetDelta.get Field.budget ≠ JVal.vNull ∧
    (mergeRequirements exampleBudget500 exampleZeroBudgetDelta).get Field.budget ≠
      exampleZeroBudgetDelta.get Field.budget ∧
    (mergeRequirements exampleBudget500 exampleZeroBudgetDelta).get Field.budget =
      JVal.vNum 500 := by
  decide

/-- C2 (amended): a key of the delta overwrites the accumulated value exactly
when its value is truthy — any non-null value other than the empty string and
zero; in particular a present empty list overwrites, while `0` and `""` are
kept out and the previous value survives. -/
theorem merge_truthy_overwrite (S D : Requirements) (k : Field)
    (h : (D.get k).truthy = true) :
    (mergeRequirements S D).get k = D.get k := by
  cases k <;>
    simp_all [Requirements.get, mergeRequirements, jsOr]

/-- C2 witness: a delta whose `special_requirements` is the (truthy) empty
list overwrites the accumulated value with the empty list. -/
theorem merge_truthy_overwrite_witness :
    (exampleEmptyListDelta.get Field.special_requirements).truthy = true ∧
    (mergeRequirements exampleTokyoRequirements exampleEmptyListDelta).get
      Field.special_requirements = JVal.vList [] :=
  ⟨by decide,
    (merge_truthy_overwrite exampleTokyoRequirements exampleEmptyListDelta
      Field.special_requirements (by decide)).trans (by decide)⟩

/-- C6: Merge idempotence — merging the same delta twice yields the same
fields as merging it once. -/
theorem merge_idempotent (S D : Requirements) :
    mergeRequirements (mergeRequirements S D) D = mergeRequirements S D := by
  cases S; cases D
  simp [mergeRequirements, jsOr_absorb]

/-- C3 counterexample: after the merge of a turn whose response reports a
stale missing list, the missing set the turn uses is not the derived set
`required_fields - keys(fields)` of the merged state — the response still
names `destination` although the merged fields contain `Tokyo`. -/
theorem missing_set_cex :
    missingFieldsOf exampleStaleMissingResponse ≠
      specMissing (updateConversationContext exampleTokyoContext
        exampleStaleMissingResponse.session_id
        (newRequirementsOf exampleStaleMissingResponse)).accumulated_requirements := by
  decide

/-- C3 (amended): the missing set a turn reports (and the `isComplete` flag
of the agent reply) is taken verbatim from the response's `missing_fields`
(empty when absent); it is not recomputed from the merged accumulated fields
and can therefore disagree with `required_fields - keys(fields)`. -/
theorem missing_from_response (st : AppState) (mt : Option String) (d : ResponseData)
    (hq : ¬(queryOf st mt = "" ∨ st.isLoading = true)) :
    ((sendMessage st mt (.ok d)).messages.getLast?.map Message.isComplete) =
      some (some (missingFieldsOf d).isEmpty) ∧
    (∀ rp : RequirementsData, d.dataField = DataField.objData none (some rp) →
      missingFieldsOf d = rp.missing_fields.getD []) := by
  constructor
  · unfold sendMessage
    rw [if_neg hq]
    simp [List.getLast?_concat, loadingMessage]
  · intro rp hd
    simp [missingFieldsOf, requirementsDataOf, hd]

/-- C3 witness: the amended statement evaluated on the stale-missing
example. -/
theorem missing_from_response_witness :
    ((sendMessage exampleTokyoState (some "I want to go somewhere")
        (.ok exampleStaleMissingResponse)).messages.getLast?.map Message.isComplete) =
      some (some (missingFieldsOf exampleStaleMissingResponse).isEmpty) ∧
    (∀ rp : RequirementsData,
      exampleStaleMissingResponse.dataField = DataField.objData none (some rp) →
      missingFieldsOf exampleStaleMissingResponse = rp.missing_fields.getD []) :=
  missing_from_response exampleTokyoState (some "I want to go somewhere")
    exampleStaleMissingResponse (by decide)

/-- C4 counterexample: the turn on a response with an empty missing list
dispatches the visa/health compliance lookups although no confirmation signal
exists anywhere in the state or the inputs (the code maintains no `confirmed`
flag, so the external confirmation is false throughout) — dispatch happens
merely because the missing set became empty. -/
theorem confirmation_gate_cex :
    sendMessageDispatchesCompliance exampleIdleState (some "Plan a trip to Tokyo")
      (.ok examplePlanReadyResponse) = true ∧
    missingFieldsOf examplePlanReadyResponse = [] := by
  decide

/-- C4 (amended): the visa/health compliance lookups are dispatched exactly
when the structured response's missing list is empty; the code consults no
confirmation signal, so dispatch is characterised by the missing set alone. -/
theorem compliance_dispatch_iff_missing_empty (st : AppState) (mt : Option String)
    (d : ResponseData) (resp : Option String) (rp : Option RequirementsData)
    (hq : ¬(queryOf st mt = "" ∨ st.isLoading = true))
    (hd : d.dataField = DataField.objData resp rp)
    (hresp : jsTruthyStrOpt resp = false) :
    sendMessageDispatchesCompliance st mt (.ok d) = (missingFieldsOf d).isEmpty := by
  unfold sendMessageDispatchesCompliance
  rw [if_neg hq]
  simp [hd, hresp]

/-- C4 witness: the amended statement evaluated on the plan-ready example. -/
theorem compliance_dispatch_iff_missing_empty_witness :
    sendMessageDispatchesCompliance exampleIdleState (some "Plan a trip to Tokyo")
      (.ok examplePlanReadyResponse) =
      (missingFieldsOf examplePlanReadyResponse).isEmpty :=
  compliance_dispatch_iff_missing_empty exampleIdleState (some "Plan a trip to Tokyo")
    examplePlanReadyResponse none (some examplePlanReadyPayload)
    (by decide) (by decide) (by decide)

/-- C5 counterexample: a turn whose response payload is a plain string has an
empty missing set (the `requirementsData` default makes `missing_fields`
empty) yet reports the raw string verbatim, not the travel plan — so "the
plan is reported iff the missing set is empty" fails on this turn. -/
theorem turn_status_cex :
    missingFieldsOf examplePlainStringResponse = [] ∧
    ((sendMessage exampleIdleState (some "What visa do I need for Thailand?")
        (.ok examplePlainStringResponse)).messages.getLast?.map
      (fun m => m.content.isPlanReply)) = some false ∧
    ((sendMessage exampleIdleState (some "What visa do I need for Thailand?")
        (.ok examplePlainStringResponse)).messages.getLast?.map Message.content) =
      some (MsgContent.str "Visa answer") := by
  decide

/-- C5 (amended): on turns whose response payload is a structured data object
without a truthy `response` string, the turn reports the travel-proposal
reply exactly when the missing set is empty, and the requirements-gathering
reply (showing the missing list) exactly when it is non-empty; turns whose
payload is a plain string (or a truthy `response` field) pass that string
through verbatim and never report either template, even though their missing
set defaults to empty. -/
theorem turn_status_iff_missing (st : AppState) (mt : Option String) (d : ResponseData)
    (resp : Option String) (rp : Option RequirementsData)
    (hq : ¬(queryOf st mt = "" ∨ st.isLoading = true))
    (hd : d.dataField = DataField.objData resp rp)
    (hresp : jsTruthyStrOpt resp = false) :
    (((sendMessage st mt (.ok d)).messages.getLast?.map Message.content) =
        some (MsgContent.planInitial (mkDisplayRequirements (newRequirementsOf d)
          st.conversationContext.accumulated_requirements)) ↔ missingFieldsOf d = []) ∧
    (((sendMessage st mt (.ok d)).messages.getLast?.map Message.content) =
        some (MsgContent.gatheringReport (missingFieldsOf d)
          (mkDisplayRequirements (newRequirementsOf d)
            st.conversationContext.accumulated_requirements)) ↔ missingFieldsOf d ≠ []) := by
  unfold sendMessage
  rw [if_neg hq]
  by_cases hm : missingFieldsOf d = [] <;>
    simp [List.getLast?_concat, loadingMessage, agentContentOf, hd, hresp, hm]

/-- C5 witness: the status equivalences evaluated on a gathering-phase
turn. -/
theorem turn_status_iff_missing_witness :
    (((sendMessage exampleTokyoState (some "I want to go somewhere")
        (.ok exampleStaleMissingResponse)).messages.getLast?.map Message.content) =
      some (MsgContent.planInitial
        (mkDisplayRequirements (newRequirementsOf exampleStaleMissingResponse)
          exampleTokyoState.conversationContext.accumulated_requirements)) ↔
      missingFieldsOf exampleStaleMissingResponse = []) ∧
    (((sendMessage exampleTokyoState (some "I want to go somewhere")
        (.ok exampleStaleMissingResponse)).messages.getLast?.map Message.content) =
      some (MsgContent.gatheringReport (missingFieldsOf exampleStaleMissingResponse)
        (mkDisplayRequirements (newRequirementsOf exampleStaleMissingResponse)
          exampleTokyoState.conversationContext.accumulated_requirements)) ↔
      missingFieldsOf exampleStaleMissingResponse ≠ []) :=
  turn_status_iff_missing exampleTokyoState (some "I want to go somewhere")
    exampleStaleMissingResponse none (some exampleStaleMissingPayload)
    (by decide) (by decide) (by decide)

/-- C7: Extraction-failure atomicity — when the backend call of a turn
errors, the conversation context (accumulated requirements and session id) is
left exactly as before the turn, the loading flag is cleared, and an error
reply is appended so the conversation continues. -/
theorem extraction_failure_atomic (st : AppState) (mt : Option String) (e : String)
    (hq : ¬(queryOf st mt = "" ∨ st.isLoading = true)) :
    ((sendMessage st mt (.error e)).conversationContext = st.conversationContext) ∧
    ((sendMessage st mt (.error e)).isLoading = false) ∧
    ((sendMessage st mt (.error e)).messages.getLast? = some (errorMessage e)) := by
  unfold sendMessage
  rw [if_neg hq]
  refine ⟨rfl, rfl, ?_⟩
  simp [List.getLast?_concat, loadingMessage]

/-- C7 witness: a failed turn on the Tokyo context changes neither the
accumulated requirements nor the session id. -/
theorem extraction_failure_atomic_witness :
    ((sendMessage exampleTokyoState (some "I want to go somewhere")
        (.error "HTTP error! status: 500")).conversationContext =
      exampleTokyoState.conversationContext) ∧
    ((sendMessage exampleTokyoState (some "I want to go somewhere")
        (.error "HTTP error! status: 500")).isLoading = false) ∧
    ((sendMessage exampleTokyoState (some "I want to go somewhere")
        (.error "HTTP error! status: 500")).messages.getLast? =
      some (errorMessage "HTTP error! status: 500")) :=
  extraction_failure_atomic exampleTokyoState (some "I want to go somewhere")
    "HTTP error! status: 500" (by decide)

/-- C8: Partial-failure tolerance — when the visa lookup of the completion
phase fails, the turn still carries a response: the visa task is reported via
its own fallback section, and the health section is exactly whatever the
(independent) health lookup produced, unaffected by the visa failure. -/
theorem partial_failure_tolerant (disp : DisplayRequirements) (e : String)
    (hOut : HealthFetch) (msgs : List Message) (m : Message)
    (hlast : msgs.getLast? = some m) (hagent : m.mtype = MessageType.agent) :
    formatVisaRequirements (.err e) = visaFallbackSection ∧
    (completePlanUpdate disp (.err e) hOut msgs).getLast? =
      some { m with content :=
        .planComplete disp visaFallbackSection (formatHealthAdvisory hOut) } := by
  refine ⟨rfl, ?_⟩
  unfold completePlanUpdate
  rw [hlast]
  simp [hagent, List.getLast?_concat, formatVisaRequirements]

/-- C8 witness: on a concrete plan message, a failed visa lookup combined
with a failed health lookup still yields the complete reply with both
fallback sections. -/
theorem partial_failure_tolerant_witness :
    formatVisaRequirements (.err "timeout") = visaFallbackSection ∧
    (completePlanUpdate exampleDisplay (.err "timeout") .notOk
        [{ mtype := .agent, content := .planInitial exampleDisplay }]).getLast? =
      some { mtype := MessageType.agent
             content := .planComplete exampleDisplay visaFallbackSection
               (formatHealthAdvisory .notOk) } :=
  partial_failure_tolerant exampleDisplay "timeout" .notOk
    [{ mtype := .agent, content := .planInitial exampleDisplay }]
    { mtype := .agent, content := .planInitial exampleDisplay } rfl rfl

/-- C9: Loading-placeholder invariant — after a turn that passed the guard,
whether the backend call succeeded or threw, the message list contains no
message of type `loading`. -/
theorem no_loading_after_turn (st : AppState) (mt : Option String)
    (outcome : FetchOutcome)
    (hq : ¬(queryOf st mt = "" ∨ st.isLoading = true)) :
    ((sendMessage st mt outcome).messages.filter
      (fun m => m.mtype = MessageType.loading)) = [] := by
  unfold sendMessage
  rw [if_neg hq]
  cases outcome <;>
    simp [List.filter_append, filter_loading_of_filter_ne, loadingMessage, errorMessage]

/-- C9 witness: no loading message survives a concrete failed turn. -/
theorem no_loading_after_turn_witness :
    ((sendMessage exampleIdleState (some "Plan a trip to Tokyo")
        (.error "Failed to fetch")).messages.filter
      (fun m => m.mtype = MessageType.loading)) = [] :=
  no_loading_after_turn exampleIdleState (some "Plan a trip to Tokyo")
    (.error "Failed to fetch") (by decide)

/-- C10 counterexample: calling `sendMessage` with a whitespace-only
`messageText` is not a no-op — the guard trims only `inputValue`, so the
whitespace-only string is truthy, the message is appended and the request is
issued. -/
theorem guard_noop_cex :
    sendMessage exampleIdleState (some "   ") (.error "Failed to fetch") ≠
      exampleIdleState := by
  decide

/-- C10 (amended): the guard is a no-op exactly on an empty effective query —
`messageText` when non-empty, otherwise the trimmed `inputValue` — or while a
request is in flight; then nothing changes at all.  A whitespace-only
non-empty `messageText`, however, passes the guard. -/
theorem guard_noop (st : AppState) (mt : Option String) (outcome : FetchOutcome)
    (h : queryOf st mt = "" ∨ st.isLoading = true) :
    sendMessage st mt outcome = st := by
  unfold sendMessage
  rw [if_pos h]

/-- C10 witness: while a request is in flight, a further call changes
nothing. -/
theorem guard_noop_witness :
    sendMessage exampleBusyState (some "Plan a trip to Tokyo") (.error "Failed to fetch") =
      exampleBusyState :=
  guard_noop exampleBusyState (some "Plan a trip to Tokyo") (.error "Failed to fetch")
    (Or.inr rfl)

end HotTravel
